import Mathlib

/-!
Verification development for the dataline conversation router
(src/backend/dataline/api/conversation/router.py) and the query
orchestration pipeline it fronts. Pure shallow embedding: the external
database is explicit state, the streamed invocation is a function from
inputs to a final session state plus an ordered trace.
-/

namespace Dataline

/-- A single cell value coming out of the external database. Raw database
values are `raw s`; `masked` is the placeholder that the secure-data
serializer substitutes for a value before it leaves the process. -/
inductive Value where
  | raw (s : String)
  | masked
deriving DecidableEq, Repr

/-- Whether a value is a raw database value (as opposed to the masked
placeholder). -/
def Value.isRaw : Value → Bool
  | .raw _ => true
  | .masked => false

/-- Normalized tabular data returned by one SQL execution: the full column
name list and the materialized rows (mirrors the `columns`/`rows` pair that
`execute_sql_query` returns to the router). -/
structure QueryRunData where
  columns : List String
  rows : List (List Value)
deriving DecidableEq, Repr

/-- The external database, as explicit state: `state` abstracts its mutable
content, `run` executes one SQL statement against a state and yields the
materialized tabular data together with the successor state (a mutating
statement returns a different state). -/
structure Database where
  state : Nat
  run : String → Nat → QueryRunData × Nat

/-- Modelled from the spec: `dataline.services.llm_flow.toolkit.execute_sql_query`
is not under src/. Per §4.1 it executes the given statement against the
external database and materializes the result rows and the full column
list; the call site in the router supplies only the database handle and the
statement string, so no row limit reaches it. Side effects of a mutating
statement are the database's own (explicit successor state here). -/
def execute_sql_query (db : Database) (sql : String) : QueryRunData × Database :=
  let r := db.run sql db.state
  (r.1, { db with state := r.2 })

/-- The result value the router builds after running the statement
(mirrors the `SQLQueryRunResult(columns=..., rows=..., for_chart=False,
linked_id=linked_id)` construction, router.py lines 151-156). Per §3 the
result also carries the `secure` flag consulted at serialization time; the
router's constructor call does not set it, so it is an explicit field
here. -/
structure SQLQueryRunResult where
  columns : List String
  rows : List (List Value)
  for_chart : Bool
  linked_id : Nat
  secure : Bool
deriving DecidableEq, Repr

/-- Transport-safe form of one result, as returned by the run-sql route and
carried inside stream events. -/
structure ResultOut where
  columns : List String
  rows : List (List Value)
  for_chart : Bool
  linked_id : Nat
deriving DecidableEq, Repr

/-- Replace every row value with the masked placeholder; row and column
counts are preserved, only the cell contents are withheld. -/
def mask_rows (rows : List (List Value)) : List (List Value) :=
  rows.map (fun row => row.map (fun _ => Value.masked))

/-- Modelled from the spec: `SQLQueryRunResult.serialize_result` is not
under src/. Per §4.2, serialization is pure; when the result's `secure`
flag is true every row value is replaced with the masked placeholder while
the column names stay visible, and `for_chart` and `linked_id` are
propagated unchanged, never re-derived. -/
def serialize_result (r : SQLQueryRunResult) : ResultOut :=
  { columns := r.columns
    rows := if r.secure then mask_rows r.rows else r.rows
    for_chart := r.for_chart
    linked_id := r.linked_id }

/-- Embedding of the run-sql route (router.py lines 124-158, `execute_sql`).
It resolves the conversation's connection (lookup is read-only, not
modelled), runs `execute_sql_query db sql` — note that neither the `limit`
nor the `execute` parameter is forwarded anywhere, exactly as in the
source — builds an `SQLQueryRunResult` with `for_chart := false` and the
caller's `linked_id`, and returns its serialized form plus the possibly
mutated external database. `result_secure` stands for the `secure` flag the
constructed result object ends up carrying; its provenance is not visible
in src/ (the constructor call sets no such field), so it is a parameter. -/
def execute_sql (db : Database) (sql : String) (linked_id : Nat)
    (limit : Nat) (execute : Bool) (result_secure : Bool) : ResultOut × Database :=
  let q := execute_sql_query db sql
  let result : SQLQueryRunResult :=
    { columns := q.1.columns
      rows := q.1.rows
      for_chart := false
      linked_id := linked_id
      secure := result_secure }
  (serialize_result result, q.2)

/-- A concrete external database with one 5-column, 5-row table; every
statement returns the whole table and leaves the state unchanged. -/
def fiveRowDb : Database where
  state := 0
  run := fun _ st =>
    ({ columns := ["id", "name", "age", "city", "email"]
       rows :=
        [ [.raw "1", .raw "ann", .raw "31", .raw "oslo", .raw "a@x"]
        , [.raw "2", .raw "bob", .raw "42", .raw "rome", .raw "b@x"]
        , [.raw "3", .raw "cai", .raw "27", .raw "lima", .raw "c@x"]
        , [.raw "4", .raw "dee", .raw "35", .raw "kiev", .raw "d@x"]
        , [.raw "5", .raw "eli", .raw "29", .raw "bern", .raw "e@x"] ] }, st)

/-- A concrete external database on which every statement execution mutates
the state (e.g. an INSERT): running any statement increments the state. -/
def mutatingDb : Database where
  state := 0
  run := fun _ st => ({ columns := [], rows := [] }, st + 1)

/-- One event of the ordered stream (§3's tagged union). -/
inductive StreamEvent where
  | reasoningStep (text : String)
  | sqlProposed (statement : String)
  | sqlResult (r : ResultOut)
  | finalAnswer (text : String)
  | error (kind message : String)
deriving DecidableEq, Repr

/-- Modelled from the spec: the streaming service
(`ConversationService.query`, not under src/) serializes each produced
`QueryRunResult` with the invocation's `secure_data` flag (§4.2, §4.4)
before emitting it as an `SQLResult` stream event. -/
def emit_sql_result (data : QueryRunData) (linked_id : Nat) (for_chart : Bool)
    (secure_data : Bool) : StreamEvent :=
  .sqlResult (serialize_result
    { columns := data.columns
      rows := data.rows
      for_chart := for_chart
      linked_id := linked_id
      secure := secure_data })

/-- A row buffered for persistence during one invocation: a new Message or
a new Result row. -/
inductive Write where
  | message (content : String)
  | result (content : String)
deriving DecidableEq, Repr

/-- The unit-of-work session bound to one streamed invocation:
`committed` rows are visible to subsequent reads, `pending` rows are
buffered and invisible until a commit, `closed` records whether the
session has been released. -/
structure Session where
  committed : List Write
  pending : List Write
  closed : Bool
deriving DecidableEq, Repr

/-- Which way the single commit-or-rollback decision on the unit-of-work
went. -/
inductive Decision where
  | commit
  | rollback
deriving DecidableEq, Repr

/-- One observable step of a streamed invocation, in order: an event handed
to the consumer, the commit-or-rollback decision, or the session release. -/
inductive TraceItem where
  | emit (e : StreamEvent)
  | decision (d : Decision)
  | sessionClose
deriving DecidableEq, Repr

/-- Whether a trace item is the commit-or-rollback decision. -/
def TraceItem.isDecision : TraceItem → Bool
  | .decision _ => true
  | _ => false

/-- Whether a trace item is an event emission to the consumer. -/
def TraceItem.isEmit : TraceItem → Bool
  | .emit _ => true
  | _ => false

/-- Embedding of the router's background hook `commit_and_close_session`
(router.py lines 106-115): try to commit; if commit raises, roll back all
changes and re-raise; in all cases close the session afterwards.
`commit_fails` models whether `session.commit()` raises. Returns the final
session, the trace of this hook, and whether an error propagated to the
operator. A failed commit leaves `committed` unchanged; the rollback
discards the buffered rows; close releases the session. -/
def commit_and_close_session (s : Session) (commit_fails : Bool) :
    Session × List TraceItem × Bool :=
  if commit_fails then
    ({ committed := s.committed, pending := [], closed := true },
     [.decision .commit, .sessionClose], true)
  else
    ({ committed := s.committed ++ s.pending, pending := [], closed := true },
     [.decision .commit, .sessionClose], false)

/-- Embedding of one streamed query invocation (router.py lines 98-121):
the route wraps the service's event generator in a `StreamingResponse`
whose background hook is `commit_and_close_session`, with the session
obtained from `get_session_no_commit`. `events` are the events the
generator actually yields to the consumer, `writes` the Message/Result
rows it buffers into the session while streaming. `gen_fails` models the
generator terminating via an uncaught error (including the flow's `Failed`
terminal state, which the service surfaces as an error ending the stream —
modelled from the spec, §4.4/§7, since the service is not under src/): in
that case the response machinery does not run the background hook, and the
no-commit session dependency's teardown releases the session without
committing, which discards the buffered rows (the rollback decision).
Otherwise the stream is drained to the end and the background hook runs
after it. Returns the final session, the full ordered trace, and whether
an error surfaced. -/
def query (s : Session) (events : List StreamEvent) (writes : List Write)
    (gen_fails : Bool) (commit_fails : Bool) : Session × List TraceItem × Bool :=
  let s1 : Session := { s with pending := s.pending ++ writes }
  let emitted := events.map TraceItem.emit
  if gen_fails then
    ({ committed := s1.committed, pending := [], closed := true },
     emitted ++ [.decision .rollback, .sessionClose], true)
  else
    let r := commit_and_close_session s1 commit_fails
    (r.1, emitted ++ r.2.1, r.2.2)

/-- How the consumer side of one streamed invocation ends: the sequence is
drained to its terminal event, the generator terminates via an uncaught
error, or the consumer disconnects mid-stream and stops draining. -/
inductive StreamExit where
  | drained
  | uncaughtError
  | disconnect
deriving DecidableEq, Repr

/-- Modelled from the spec: the Coordinator's treatment of every stream
exit path; the Coordinator (`ConversationService.query`) is not under
src/. For `drained` and `uncaughtError` this is exactly the embedded
router wiring (`query`). For `disconnect` the Coordinator detects that the
sequence stopped being drained and triggers rollback exactly as on error
(§5) — no commit may occur for a client-abandoned stream — and the
unit-of-work is released on this early-cancellation path too (§9).
`events` are the events actually delivered before the path ended. -/
def query_exit (s : Session) (events : List StreamEvent) (writes : List Write)
    (mode : StreamExit) (commit_fails : Bool) : Session × List TraceItem × Bool :=
  match mode with
  | .drained => query s events writes false commit_fails
  | .uncaughtError => query s events writes true commit_fails
  | .disconnect => query s events writes true commit_fails

/-- An action proposed by the language-model capability (§4.3). -/
inductive FlowAction where
  | proposeSQL (statement : String)
  | askClarification (text : String)
  | finalAnswer (text : String)
deriving DecidableEq, Repr

/-- Whether the proposed action is a SQL proposal. -/
def FlowAction.isProposeSQL : FlowAction → Bool
  | .proposeSQL _ => true
  | _ => false

/-- Flow-level failures (§7). -/
inductive FlowError where
  | stepLimitExceeded
  | modelUnavailable
deriving DecidableEq, Repr

/-- Terminal outcome of the Flow Step Engine (§4.3): `Done` with a final
answer, a clarification request back to the user, or `Failed`. -/
inductive FlowOutcome where
  | done (answer : String)
  | clarification (text : String)
  | failed (e : FlowError)
deriving DecidableEq, Repr

/-- Modelled from the spec: the Flow Step Engine (§4.3) is not under src/.
`model` maps the running context (prior observations) to the next action;
`observe` runs a proposed statement and yields the observation folded back
into the context; `max_steps` is the configured step ceiling. Each
proposing cycle consumes one step; when the ceiling is exhausted while the
model still wants to act, the engine transitions to
`Failed{StepLimitExceeded}`. Returns the terminal outcome and the number
of proposing cycles executed. -/
def flow_run (model : List QueryRunData → FlowAction)
    (observe : String → QueryRunData) (max_steps : Nat)
    (ctx : List QueryRunData) : FlowOutcome × Nat :=
  match max_steps with
  | 0 => (.failed .stepLimitExceeded, 0)
  | n + 1 =>
    match model ctx with
    | .finalAnswer t => (.done t, 0)
    | .askClarification t => (.clarification t, 0)
    | .proposeSQL s =>
      let r := flow_run model observe n (ctx ++ [observe s])
      (r.1, r.2 + 1)

/-- A model that always proposes one more SQL statement. -/
def alwaysPropose : List QueryRunData → FlowAction :=
  fun _ => .proposeSQL "SELECT 1"

/-- A trivial executor observation for the step-limit witness. -/
def constObserve : String → QueryRunData :=
  fun _ => { columns := [], rows := [] }

lemma filter_decision_map_emit (events : List StreamEvent) :
    (events.map TraceItem.emit).filter TraceItem.isDecision = [] := by
  induction events with
  | nil => rfl
  | cons e es ih => simp [TraceItem.isDecision, ih]

lemma query_trace (s : Session) (events : List StreamEvent) (writes : List Write)
    (gen_fails commit_fails : Bool) :
    (query s events writes gen_fails commit_fails).2.1
      = events.map TraceItem.emit
        ++ [TraceItem.decision (if gen_fails then Decision.rollback else Decision.commit),
            TraceItem.sessionClose] := by
  cases gen_fails <;> cases commit_fails <;> rfl

/-- Claim C9: every RunSQL invocation that returns successfully returns a
result whose for_chart flag is False, regardless of the shape of the
submitted SQL statement. -/
theorem run_sql_for_chart_false (db : Database) (sql : String)
    (linked_id limit : Nat) (execute result_secure : Bool) :
    ((execute_sql db sql linked_id limit execute result_secure).1).for_chart = false :=
  rfl

/-- Claim C10: every RunSQL invocation that returns successfully returns a
result whose linked_id equals the linked_id argument supplied by the
caller, unchanged. -/
theorem run_sql_preserves_linked_id (db : Database) (sql : String)
    (linked_id limit : Nat) (execute result_secure : Bool) :
    ((execute_sql db sql linked_id limit execute result_secure).1).linked_id = linked_id :=
  rfl

/-- Claim C2, evaluated at the spec's own scenario: the route never
forwards the caller's `limit` to `execute_sql_query`, so RunSQL with
`limit = 2` against the 5-row table returns all 5 rows (not at most 2),
although the full column list is indeed returned; in general the route's
output is independent of the `limit` argument. -/
theorem run_sql_ignores_limit :
    ((execute_sql fiveRowDb "SELECT * FROM users" 7 2 true false).1).rows.length = 5
    ∧ 2 < ((execute_sql fiveRowDb "SELECT * FROM users" 7 2 true false).1).rows.length
    ∧ ((execute_sql fiveRowDb "SELECT * FROM users" 7 2 true false).1).columns
        = ["id", "name", "age", "city", "email"]
    ∧ ∀ (db : Database) (sql : String) (linked_id l1 l2 : Nat)
        (execute result_secure : Bool),
        execute_sql db sql linked_id l1 execute result_secure
          = execute_sql db sql linked_id l2 execute result_secure :=
  ⟨rfl, by decide, rfl, fun _ _ _ _ _ _ _ => rfl⟩

/-- Claim C3, evaluated at a mutating statement: the route never consults
the `execute` flag — `execute_sql_query` is called unconditionally — so
with `execute = false` the external database still transitions to a new
state (here from state 0 to state 1); in general the route's output is
independent of the `execute` argument. -/
theorem run_sql_ignores_execute_flag :
    ((execute_sql mutatingDb "INSERT INTO t VALUES (1)" 0 10 false false).2).state = 1
    ∧ mutatingDb.state = 0
    ∧ ∀ (db : Database) (sql : String) (linked_id limit : Nat)
        (e1 e2 result_secure : Bool),
        execute_sql db sql linked_id limit e1 result_secure
          = execute_sql db sql linked_id limit e2 result_secure :=
  ⟨rfl, rfl, fun _ _ _ _ _ _ _ => rfl⟩

/-- Claim C1: when the event sequence terminates via an uncaught error
(including the Failed terminal state, surfaced as an error ending the
stream), the background commit hook never runs and the no-commit session
teardown discards every row buffered during the invocation, so no new
Message or Result row from it is visible to subsequent reads; the session
is still released. -/
theorem rollback_on_uncaught_error (s : Session) (events : List StreamEvent)
    (writes : List Write) (commit_fails : Bool) :
    ((query s events writes true commit_fails).1).committed = s.committed
    ∧ ((query s events writes true commit_fails).1).pending = []
    ∧ ((query s events writes true commit_fails).1).closed = true :=
  ⟨rfl, rfl, rfl⟩

/-- Claim C4: in the trace of every streamed invocation the
commit-or-rollback decision appears exactly once, the first
`events.length` items are exactly the emitted events, and no further
emission follows them — the decision is made only after the consumer has
drained the whole sequence. -/
theorem decision_once_after_drain (s : Session) (events : List StreamEvent)
    (writes : List Write) (gen_fails commit_fails : Bool) :
    (((query s events writes gen_fails commit_fails).2.1).filter
        TraceItem.isDecision).length = 1
    ∧ ((query s events writes gen_fails commit_fails).2.1).take events.length
        = events.map TraceItem.emit
    ∧ (((query s events writes gen_fails commit_fails).2.1).drop
        events.length).filter TraceItem.isEmit = [] := by
  have hlen : events.length = (events.map TraceItem.emit).length :=
    (List.length_map events TraceItem.emit).symm
  rw [query_trace, hlen, List.take_left, List.drop_left, List.filter_append,
    filter_decision_map_emit]
  refine ⟨?_, rfl, ?_⟩ <;> cases gen_fails <;> rfl

/-- Claim C5: the unit-of-work is released on every exit path, and always
after the commit-or-rollback decision (the trace ends with the decision
followed by the close); when commit itself fails, rollback is performed
(nothing new committed, buffer discarded) and the failure is reported
rather than swallowed. -/
theorem session_released_and_commit_failure_reported (s : Session)
    (events : List StreamEvent) (writes : List Write)
    (gen_fails commit_fails : Bool) :
    ((query s events writes gen_fails commit_fails).1).closed = true
    ∧ (∃ pre d, (query s events writes gen_fails commit_fails).2.1
        = pre ++ [TraceItem.decision d, TraceItem.sessionClose])
    ∧ (query s events writes false true).2.2 = true
    ∧ ((query s events writes false true).1).committed = s.committed
    ∧ ((query s events writes false true).1).pending = [] := by
  refine ⟨?_, ⟨events.map TraceItem.emit, ?_, ?_⟩, rfl, rfl, rfl⟩
  · cases gen_fails <;> cases commit_fails <;> rfl
  · exact if gen_fails then Decision.rollback else Decision.commit
  · cases gen_fails <;> cases commit_fails <;> rfl

/-- Claim C6: when the consumer disconnects mid-stream, the invocation is
rolled back exactly as on error: nothing newly committed becomes visible,
the buffered writes are discarded, the unit-of-work is released, and the
single decision appearing in the trace is the rollback — so no commit of
that invocation's buffered writes ever occurs. -/
theorem disconnect_rolls_back (s : Session) (events : List StreamEvent)
    (writes : List Write) (commit_fails : Bool) :
    ((query_exit s events writes .disconnect commit_fails).1).committed = s.committed
    ∧ ((query_exit s events writes .disconnect commit_fails).1).pending = []
    ∧ ((query_exit s events writes .disconnect commit_fails).1).closed = true
    ∧ ((query_exit s events writes .disconnect commit_fails).2.1).filter
        TraceItem.isDecision = [TraceItem.decision Decision.rollback] := by
  refine ⟨rfl, rfl, rfl, ?_⟩
  show ((query s events writes true commit_fails).2.1).filter TraceItem.isDecision
      = [TraceItem.decision Decision.rollback]
  rw [query_trace, List.filter_append, filter_decision_map_emit]
  rfl

/-- Claim C7: with secureData true, serialization replaces every row value
with the masked placeholder while the column names stay visible, and the
masked placeholder never equals any raw database value; the same
serializer is applied on the streaming path (emit_sql_result) and on the
RunSQL path (execute_sql). -/
theorem secure_masking (data : QueryRunData) (linked_id : Nat)
    (for_chart : Bool) (db : Database) (sql : String) (limit : Nat)
    (execute : Bool) :
    emit_sql_result data linked_id for_chart true
      = StreamEvent.sqlResult
          { columns := data.columns
            rows := mask_rows data.rows
            for_chart := for_chart
            linked_id := linked_id }
    ∧ ((execute_sql db sql linked_id limit execute true).1).rows
        = mask_rows ((execute_sql_query db sql).1).rows
    ∧ ((execute_sql db sql linked_id limit execute true).1).columns
        = ((execute_sql_query db sql).1).columns
    ∧ (∀ row, row ∈ mask_rows data.rows → ∀ m, m ∈ row → m = Value.masked)
    ∧ (∀ v, v ∈ data.rows.flatten → v.isRaw = true → v ≠ Value.masked) := by
  refine ⟨rfl, rfl, rfl, ?_, ?_⟩
  · intro row hrow m hm
    simp only [mask_rows, List.mem_map] at hrow
    obtain ⟨r0, -, rfl⟩ := hrow
    simp only [List.mem_map] at hm
    obtain ⟨v, -, rfl⟩ := hm
    rfl
  · intro v _ hv hcontra
    rw [hcontra] at hv
    exact Bool.noConfusion hv

/-- Claim C7 witness: the theorem applied at a concrete one-cell result,
with the membership and rawness hypotheses discharged by evaluation. -/
theorem secure_masking_witness :
    Value.masked = Value.masked ∧ Value.raw "ann" ≠ Value.masked := by
  have h := secure_masking ⟨["name"], [[Value.raw "ann"]]⟩ 0 false fiveRowDb
    "SELECT 1" 10 true
  exact ⟨h.2.2.2.1 [Value.masked] (by simp [mask_rows]) Value.masked (by simp),
    h.2.2.2.2 (Value.raw "ann") (by simp) rfl⟩

/-- Claim C8: a Flow Step Engine configured with step ceiling N, run
against a model that always proposes further SQL, terminates in
Failed{StepLimitExceeded} after exactly N proposing cycles, never N+1. -/
theorem step_limit_exact (model : List QueryRunData → FlowAction)
    (observe : String → QueryRunData) (max_steps : Nat)
    (ctx : List QueryRunData)
    (h : ∀ c, (model c).isProposeSQL = true) :
    flow_run model observe max_steps ctx
      = (FlowOutcome.failed FlowError.stepLimitExceeded, max_steps) := by
  induction max_steps generalizing ctx with
  | zero => rfl
  | succ n ih =>
    have hp := h ctx
    cases hm : model ctx with
    | proposeSQL stmt => simp [flow_run, hm, ih]
    | askClarification t =>
      rw [hm] at hp
      exact absurd hp (by simp [FlowAction.isProposeSQL])
    | finalAnswer t =>
      rw [hm] at hp
      exact absurd hp (by simp [FlowAction.isProposeSQL])

/-- Claim C8 witness: with ceiling 3 and the always-proposing model, the
engine fails with StepLimitExceeded after exactly 3 proposing cycles. -/
theorem step_limit_exact_witness :
    flow_run alwaysPropose constObserve 3 []
      = (FlowOutcome.failed FlowError.stepLimitExceeded, 3) :=
  step_limit_exact alwaysPropose constObserve 3 [] (fun _ => rfl)

end Dataline
